import Mathlib

/-!
Shallow embedding of `src/app.py` (a Streamlit chat front-end that forwards
user messages to the Gemini generation endpoint and appends each exchange to a
Google Sheet).  External services (Streamlit secrets, Gemini, gspread) are
modelled by an environment of call outcomes; the handler and the logging
function are translated statement-for-statement from the source.  Each turn
also produces an ordered event trace so that sequencing properties
("appended before the generation call") can be stated.
-/

namespace GeminiChatLogger

/-- A chat message as stored in `st.session_state.chat_history`:
a dict with keys "role" and "content" (src/app.py lines 128, 140). -/
structure Message where
  role : String
  content : String
deriving DecidableEq, Repr

/-- The Streamlit secrets store as visible to lines 18-24: each key is
either present with a string value or absent (`none`), in which case
`st.secrets[...]` raises `KeyError` while `st.secrets.get` returns the
supplied default. -/
structure Secrets where
  GEMINI_API_KEY : Option String
  SERVICE_ACCOUNT_JSON : Option String
  SHEET_ID : Option String
  SHEET_NAME : Option String
deriving DecidableEq, Repr

/-- Configuration values bound by lines 19-24 when loading succeeds. -/
structure Config where
  geminiApiKey : String
  serviceAccountJson : String
  sheetId : String
  sheetName : String
deriving DecidableEq, Repr

/-- Lines 18-29: the three `st.secrets[...]` subscripts are attempted in
source order inside one `try`; a missing key raises `KeyError`, which the
`except` turns into `st.error` + `st.stop()` (modelled as `Except.error`).
`SHEET_NAME` is read with `st.secrets.get("SHEET_NAME", "ChatLogs")`,
which never raises. -/
def load_config (s : Secrets) : Except String Config :=
  match s.GEMINI_API_KEY with
  | none => Except.error "ERROR: Missing secret: GEMINI_API_KEY. Please add it in your app Settings -> Secrets."
  | some k =>
    match s.SERVICE_ACCOUNT_JSON with
    | none => Except.error "ERROR: Missing secret: SERVICE_ACCOUNT_JSON. Please add it in your app Settings -> Secrets."
    | some j =>
      match s.SHEET_ID with
      | none => Except.error "ERROR: Missing secret: SHEET_ID. Please add it in your app Settings -> Secrets."
      | some i => Except.ok ⟨k, j, i, s.SHEET_NAME.getD "ChatLogs"⟩

/-- Line 32: the fixed system prompt (its exact text is irrelevant to every
claim; only that it is one fixed string). -/
def SYSTEM_PROMPT : String := "You are Dr. Huberman AI..."

/-- Line 135: `full_prompt = f"{SYSTEM_PROMPT}\n\nUser: {prompt}\nAssistant:"`. -/
def full_prompt (prompt : String) : String :=
  SYSTEM_PROMPT ++ "\n\nUser: " ++ prompt ++ "\nAssistant:"

/-- Outcome of `gemini_model.generate_content(full_prompt)` followed by
`response.text` (line 136-137): a text on success, a raised exception
otherwise. -/
inductive GenOutcome where
  | ok (text : String)
  | err (msg : String)
deriving DecidableEq, Repr

/-- Outcome of `client.open_by_key(SHEET_ID)` (line 63). -/
inductive OpenOutcome where
  | ok
  | err (msg : String)
deriving DecidableEq, Repr

/-- Outcome of `client.open(SHEET_NAME)` (line 69); the source distinguishes
`gspread.exceptions.SpreadsheetNotFound` from other exceptions. -/
inductive NameOpenOutcome where
  | ok
  | notFound
  | err (msg : String)
deriving DecidableEq, Repr

/-- Outcome of `sheet.append_row(...)` (line 80). -/
inductive AppendOutcome where
  | ok
  | err (msg : String)
deriving DecidableEq, Repr

/-- The external world for one turn: what each remote call would do if
issued, plus the string `datetime.now().isoformat()` would return. -/
structure Env where
  gen : GenOutcome
  openById : OpenOutcome
  openByName : NameOpenOutcome
  append : AppendOutcome
  timestamp : String
deriving DecidableEq, Repr

/-- Observable events of one turn, in program order. -/
inductive Event where
  | appendMsg (m : Message)
  | displayMsg (role content : String)
  | genCall (p : String)
  | logCall (u b : String)
  | openByIdCall (sheetId : String)
  | openByNameCall (sheetName : String)
  | appendRowCall (tab : Nat) (row : List String)
  | showErr (e : String)
  | stop
deriving DecidableEq, Repr

/-- Result of `log_chat_to_sheet`: the events it emitted and the (first
worksheet tab of the) remote sheet afterwards.  The source only ever touches
`.sheet1`, so the sheet state is that one tab's row list. -/
structure LogResult where
  trace : List Event
  sheet : List (List String)
deriving DecidableEq, Repr

/-- Lines 77-82: once a sheet handle was obtained, build the row
`[timestamp, user_message, bot_response]` and call `sheet.append_row` on it;
`sheet` is `.sheet1`, the first worksheet tab (index 0).  A raised exception
is caught and rendered with `st.error`. -/
def append_step (env : Env) (sheet : List (List String))
    (user_message bot_response : String) (pre : List Event) : LogResult :=
  match env.append with
  | AppendOutcome.ok =>
      ⟨pre ++ [Event.appendRowCall 0 [env.timestamp, user_message, bot_response]],
       sheet ++ [[env.timestamp, user_message, bot_response]]⟩
  | AppendOutcome.err e =>
      ⟨pre ++ [Event.appendRowCall 0 [env.timestamp, user_message, bot_response],
               Event.showErr ("Error appending row to sheet: " ++ e)],
       sheet⟩

/-- Lines 56-82, translated branch for branch.  `clientIsNone` models
`client is None` (line 58).  Every remote call of the body sits inside a
`try`/`except`, so the function always returns normally. -/
def log_chat_to_sheet (clientIsNone : Bool) (env : Env) (sheetId sheetName : String)
    (sheet : List (List String)) (user_message bot_response : String) : LogResult :=
  if clientIsNone then ⟨[], sheet⟩
  else
    match env.openById with
    | OpenOutcome.ok =>
        append_step env sheet user_message bot_response [Event.openByIdCall sheetId]
    | OpenOutcome.err e =>
        match env.openByName with
        | NameOpenOutcome.ok =>
            append_step env sheet user_message bot_response
              [Event.openByIdCall sheetId,
               Event.showErr ("Error opening sheet by ID. Trying by name... Error: " ++ e),
               Event.openByNameCall sheetName]
        | NameOpenOutcome.notFound =>
            ⟨[Event.openByIdCall sheetId,
              Event.showErr ("Error opening sheet by ID. Trying by name... Error: " ++ e),
              Event.openByNameCall sheetName,
              Event.showErr ("Error: Spreadsheet " ++ sheetName ++ " not found. Check name and sharing.")],
             sheet⟩
        | NameOpenOutcome.err en =>
            ⟨[Event.openByIdCall sheetId,
              Event.showErr ("Error opening sheet by ID. Trying by name... Error: " ++ e),
              Event.openByNameCall sheetName,
              Event.showErr ("Error opening sheet by name: " ++ en)],
             sheet⟩

/-- Result of one run of the chat-input handler: its event trace, the
conversation store afterwards, and the remote sheet afterwards. -/
structure TurnResult where
  trace : List Event
  chat_history : List Message
  sheet : List (List String)
deriving DecidableEq, Repr

/-- Lines 122-146, translated statement for statement.
`prompt = ""` models `st.chat_input` yielding no (or empty, hence falsy)
input: the walrus `if prompt := st.chat_input(...)` skips the whole block.
The guard at lines 124-126 checks `gemini_model is None or gs_client is None`
and stops.  Otherwise: append the user message (line 128), display it
(line 130), build `full_prompt` and call generation (lines 135-136); on
success display the reply (line 139), append the assistant message
(line 140), and call `log_chat_to_sheet` (line 143); on a raised exception
render it with `st.error` (line 146). -/
def handle_input (cfg : Config) (geminiModelIsNone gsClientIsNone : Bool)
    (env : Env) (chat_history : List Message) (sheet : List (List String))
    (prompt : String) : TurnResult :=
  if prompt = "" then ⟨[], chat_history, sheet⟩
  else if geminiModelIsNone || gsClientIsNone then
    ⟨[Event.showErr "Backend services not initialized. Cannot process request.", Event.stop],
     chat_history, sheet⟩
  else
    match env.gen with
    | GenOutcome.ok bot_response =>
        let logRes := log_chat_to_sheet false env cfg.sheetId cfg.sheetName sheet prompt bot_response
        ⟨[Event.appendMsg ⟨"user", prompt⟩, Event.displayMsg "user" prompt,
          Event.genCall (full_prompt prompt),
          Event.displayMsg "assistant" bot_response,
          Event.appendMsg ⟨"assistant", bot_response⟩,
          Event.logCall prompt bot_response] ++ logRes.trace,
         chat_history ++ [⟨"user", prompt⟩, ⟨"assistant", bot_response⟩],
         logRes.sheet⟩
    | GenOutcome.err e =>
        ⟨[Event.appendMsg ⟨"user", prompt⟩, Event.displayMsg "user" prompt,
          Event.genCall (full_prompt prompt),
          Event.showErr ("Error generating response from Gemini: " ++ e)],
         chat_history ++ [⟨"user", prompt⟩],
         sheet⟩

/-- Messages appended to the conversation store during a trace. -/
def appendedMsgs : List Event → List Message
  | [] => []
  | Event.appendMsg m :: t => m :: appendedMsgs t
  | _ :: t => appendedMsgs t

/-- Appended messages with role "user". -/
def userAppends (t : List Event) : List Message :=
  (appendedMsgs t).filter fun m => m.role = "user"

/-- Appended messages with role "assistant". -/
def assistantAppends (t : List Event) : List Message :=
  (appendedMsgs t).filter fun m => m.role = "assistant"

/-- Prompts sent to the generation endpoint during a trace. -/
def genCallsOf : List Event → List String
  | [] => []
  | Event.genCall p :: t => p :: genCallsOf t
  | _ :: t => genCallsOf t

/-- (user string, assistant string) pairs passed to `log_chat_to_sheet`. -/
def logCallsOf : List Event → List (String × String)
  | [] => []
  | Event.logCall u b :: t => (u, b) :: logCallsOf t
  | _ :: t => logCallsOf t

/-- Sheet identifiers passed to `client.open_by_key`. -/
def openByIdCallsOf : List Event → List String
  | [] => []
  | Event.openByIdCall i :: t => i :: openByIdCallsOf t
  | _ :: t => openByIdCallsOf t

/-- Sheet names passed to `client.open`. -/
def openByNameCallsOf : List Event → List String
  | [] => []
  | Event.openByNameCall n :: t => n :: openByNameCallsOf t
  | _ :: t => openByNameCallsOf t

/-- (worksheet tab index, row) pairs passed to `append_row`. -/
def appendRowCallsOf : List Event → List (Nat × List String)
  | [] => []
  | Event.appendRowCall tab row :: t => (tab, row) :: appendRowCallsOf t
  | _ :: t => appendRowCallsOf t

/-- Error strings rendered with `st.error`. -/
def errorsOf : List Event → List String
  | [] => []
  | Event.showErr s :: t => s :: errorsOf t
  | _ :: t => errorsOf t

/-- (role, content) pairs rendered in chat bubbles with `st.markdown`. -/
def displayedOf : List Event → List (String × String)
  | [] => []
  | Event.displayMsg r c :: t => (r, c) :: displayedOf t
  | _ :: t => displayedOf t

/-! ## Helper lemmas -/

/-- The trace of `log_chat_to_sheet` never appends a conversation message. -/
theorem appendedMsgs_log_chat (c : Bool) (env : Env) (i n : String)
    (sheet : List (List String)) (u b : String) :
    appendedMsgs (log_chat_to_sheet c env i n sheet u b).trace = [] := by
  obtain ⟨g, oid, onm, ap, ts⟩ := env
  cases c <;> cases oid <;> cases onm <;> cases ap <;>
    simp [log_chat_to_sheet, append_step, appendedMsgs]

/-- The trace of `log_chat_to_sheet` never issues a generation call. -/
theorem genCallsOf_log_chat (c : Bool) (env : Env) (i n : String)
    (sheet : List (List String)) (u b : String) :
    genCallsOf (log_chat_to_sheet c env i n sheet u b).trace = [] := by
  obtain ⟨g, oid, onm, ap, ts⟩ := env
  cases c <;> cases oid <;> cases onm <;> cases ap <;>
    simp [log_chat_to_sheet, append_step, genCallsOf]

/-- The trace of `log_chat_to_sheet` never issues a (further) log call. -/
theorem logCallsOf_log_chat (c : Bool) (env : Env) (i n : String)
    (sheet : List (List String)) (u b : String) :
    logCallsOf (log_chat_to_sheet c env i n sheet u b).trace = [] := by
  obtain ⟨g, oid, onm, ap, ts⟩ := env
  cases c <;> cases oid <;> cases onm <;> cases ap <;>
    simp [log_chat_to_sheet, append_step, logCallsOf]

/-- The trace of `log_chat_to_sheet` never renders a chat bubble. -/
theorem displayedOf_log_chat (c : Bool) (env : Env) (i n : String)
    (sheet : List (List String)) (u b : String) :
    displayedOf (log_chat_to_sheet c env i n sheet u b).trace = [] := by
  obtain ⟨g, oid, onm, ap, ts⟩ := env
  cases c <;> cases oid <;> cases onm <;> cases ap <;>
    simp [log_chat_to_sheet, append_step, displayedOf]

/-! ## Claim theorems -/

/-- C1: for every non-empty user input on which the generation call succeeds,
exactly one assistant message is appended to the conversation store, exactly
one log-append attempt (one call to `log_chat_to_sheet`) is made, and the user
string and assistant string passed to that call are the same two strings
displayed in the chat. -/
theorem C1_success_one_assistant_one_log (cfg : Config) (env : Env)
    (h : List Message) (sheet : List (List String)) (p r : String)
    (hp : p ≠ "") (hg : env.gen = GenOutcome.ok r) :
    assistantAppends (handle_input cfg false false env h sheet p).trace = [⟨"assistant", r⟩]
    ∧ logCallsOf (handle_input cfg false false env h sheet p).trace = [(p, r)]
    ∧ displayedOf (handle_input cfg false false env h sheet p).trace
        = [("user", p), ("assistant", r)] := by
  simp [handle_input, hp, hg, assistantAppends, appendedMsgs, appendedMsgs_log_chat,
    logCallsOf, logCallsOf_log_chat, displayedOf, displayedOf_log_chat]

/-- Witness for C1 at a concrete input. -/
theorem C1_success_one_assistant_one_log_witness :
    assistantAppends (handle_input ⟨"k", "j", "i", "ChatLogs"⟩ false false
        ⟨GenOutcome.ok "resp", OpenOutcome.ok, NameOpenOutcome.ok, AppendOutcome.ok, "ts"⟩
        [] [] "hi").trace = [⟨"assistant", "resp"⟩]
    ∧ logCallsOf (handle_input ⟨"k", "j", "i", "ChatLogs"⟩ false false
        ⟨GenOutcome.ok "resp", OpenOutcome.ok, NameOpenOutcome.ok, AppendOutcome.ok, "ts"⟩
        [] [] "hi").trace = [("hi", "resp")]
    ∧ displayedOf (handle_input ⟨"k", "j", "i", "ChatLogs"⟩ false false
        ⟨GenOutcome.ok "resp", OpenOutcome.ok, NameOpenOutcome.ok, AppendOutcome.ok, "ts"⟩
        [] [] "hi").trace = [("user", "hi"), ("assistant", "resp")] :=
  C1_success_one_assistant_one_log _ _ _ _ _ _ (by decide) rfl

/-- C2: for every non-empty user input on which the generation call fails,
no assistant message is appended, no log call and no row-append call are
made, and the conversation store afterwards is its prior state plus only
the one user message. -/
theorem C2_failure_no_assistant_no_log (cfg : Config) (env : Env)
    (h : List Message) (sheet : List (List String)) (p e : String)
    (hp : p ≠ "") (hg : env.gen = GenOutcome.err e) :
    assistantAppends (handle_input cfg false false env h sheet p).trace = []
    ∧ logCallsOf (handle_input cfg false false env h sheet p).trace = []
    ∧ appendRowCallsOf (handle_input cfg false false env h sheet p).trace = []
    ∧ (handle_input cfg false false env h sheet p).chat_history = h ++ [⟨"user", p⟩] := by
  simp [handle_input, hp, hg, assistantAppends, appendedMsgs, logCallsOf, appendRowCallsOf]

/-- Witness for C2 at a concrete input. -/
theorem C2_failure_no_assistant_no_log_witness :
    assistantAppends (handle_input ⟨"k", "j", "i", "ChatLogs"⟩ false false
        ⟨GenOutcome.err "boom", OpenOutcome.ok, NameOpenOutcome.ok, AppendOutcome.ok, "ts"⟩
        [⟨"user", "old"⟩] [] "hi").trace = []
    ∧ logCallsOf (handle_input ⟨"k", "j", "i", "ChatLogs"⟩ false false
        ⟨GenOutcome.err "boom", OpenOutcome.ok, NameOpenOutcome.ok, AppendOutcome.ok, "ts"⟩
        [⟨"user", "old"⟩] [] "hi").trace = []
    ∧ appendRowCallsOf (handle_input ⟨"k", "j", "i", "ChatLogs"⟩ false false
        ⟨GenOutcome.err "boom", OpenOutcome.ok, NameOpenOutcome.ok, AppendOutcome.ok, "ts"⟩
        [⟨"user", "old"⟩] [] "hi").trace = []
    ∧ (handle_input ⟨"k", "j", "i", "ChatLogs"⟩ false false
        ⟨GenOutcome.err "boom", OpenOutcome.ok, NameOpenOutcome.ok, AppendOutcome.ok, "ts"⟩
        [⟨"user", "old"⟩] [] "hi").chat_history = [⟨"user", "old"⟩] ++ [⟨"user", "hi"⟩] :=
  C2_failure_no_assistant_no_log _ _ _ _ _ _ (by decide) rfl

/-- C3 counterexample: with the Gemini model uninitialized (`gemini_model is
None`, line 124), the non-empty input "hi" appends no user message at all and
issues no generation call, refuting the unconditional "for all non-empty user
inputs, exactly one user Message is appended" reading. -/
theorem C3_counterexample :
    ("hi" : String) ≠ ""
    ∧ userAppends (handle_input ⟨"k", "j", "i", "ChatLogs"⟩ true false
        ⟨GenOutcome.ok "resp", OpenOutcome.ok, NameOpenOutcome.ok, AppendOutcome.ok, "ts"⟩
        [] [] "hi").trace = []
    ∧ genCallsOf (handle_input ⟨"k", "j", "i", "ChatLogs"⟩ true false
        ⟨GenOutcome.ok "resp", OpenOutcome.ok, NameOpenOutcome.ok, AppendOutcome.ok, "ts"⟩
        [] [] "hi").trace = [] := by
  refine ⟨by decide, ?_, ?_⟩ <;>
    simp [handle_input, userAppends, appendedMsgs, genCallsOf]

/-- C3 (amended): provided both backend clients initialized successfully, for
every non-empty user input exactly one user message (role "user", content
equal to the input) is appended to the conversation store, and that append
happens before the generation call is issued. -/
theorem C3_user_append_before_generation (cfg : Config) (env : Env)
    (h : List Message) (sheet : List (List String)) (p : String) (hp : p ≠ "") :
    userAppends (handle_input cfg false false env h sheet p).trace = [⟨"user", p⟩]
    ∧ ∃ t, (handle_input cfg false false env h sheet p).trace
        = Event.appendMsg ⟨"user", p⟩ :: Event.displayMsg "user" p
          :: Event.genCall (full_prompt p) :: t := by
  obtain ⟨g, oid, onm, ap, ts⟩ := env
  cases g with
  | ok r =>
      refine ⟨?_, ?_⟩ <;>
        simp [handle_input, hp, userAppends, appendedMsgs, appendedMsgs_log_chat]
  | err e =>
      refine ⟨?_, ?_⟩ <;>
        simp [handle_input, hp, userAppends, appendedMsgs]

/-- Witness for the amended C3 at a concrete input. -/
theorem C3_user_append_before_generation_witness :
    userAppends (handle_input ⟨"k", "j", "i", "ChatLogs"⟩ false false
        ⟨GenOutcome.ok "resp", OpenOutcome.ok, NameOpenOutcome.ok, AppendOutcome.ok, "ts"⟩
        [] [] "hi").trace = [⟨"user", "hi"⟩]
    ∧ ∃ t, (handle_input ⟨"k", "j", "i", "ChatLogs"⟩ false false
        ⟨GenOutcome.ok "resp", OpenOutcome.ok, NameOpenOutcome.ok, AppendOutcome.ok, "ts"⟩
        [] [] "hi").trace
        = Event.appendMsg ⟨"user", "hi"⟩ :: Event.displayMsg "user" "hi"
          :: Event.genCall (full_prompt "hi") :: t :=
  C3_user_append_before_generation _ _ _ _ _ (by decide)

/-- C4: in the spreadsheet-resolution step of `log_chat_to_sheet`: if opening
by ID succeeds, the by-name lookup is never attempted; if opening by ID
fails, the by-name lookup is attempted exactly once; and if both fail, the
operation surfaces an error and performs no row append (sheet unchanged). -/
theorem C4_resolution_fallback (env : Env) (i n u b : String)
    (sheet : List (List String)) :
    (env.openById = OpenOutcome.ok →
      openByNameCallsOf (log_chat_to_sheet false env i n sheet u b).trace = [])
    ∧ (env.openById ≠ OpenOutcome.ok →
      openByNameCallsOf (log_chat_to_sheet false env i n sheet u b).trace = [n])
    ∧ (env.openById ≠ OpenOutcome.ok → env.openByName ≠ NameOpenOutcome.ok →
      appendRowCallsOf (log_chat_to_sheet false env i n sheet u b).trace = []
      ∧ (log_chat_to_sheet false env i n sheet u b).sheet = sheet
      ∧ errorsOf (log_chat_to_sheet false env i n sheet u b).trace ≠ []) := by
  obtain ⟨g, oid, onm, ap, ts⟩ := env
  cases oid <;> cases onm <;> cases ap <;>
    simp [log_chat_to_sheet, append_step, openByNameCallsOf, appendRowCallsOf, errorsOf]

/-- Witness for C4: one concrete run per branch (ID succeeds; ID fails with
name succeeding; both fail). -/
theorem C4_resolution_fallback_witness :
    openByNameCallsOf (log_chat_to_sheet false
        ⟨GenOutcome.ok "r", OpenOutcome.ok, NameOpenOutcome.ok, AppendOutcome.ok, "ts"⟩
        "i" "n" [] "u" "b").trace = []
    ∧ openByNameCallsOf (log_chat_to_sheet false
        ⟨GenOutcome.ok "r", OpenOutcome.err "bad id", NameOpenOutcome.ok, AppendOutcome.ok, "ts"⟩
        "i" "n" [] "u" "b").trace = ["n"]
    ∧ (appendRowCallsOf (log_chat_to_sheet false
        ⟨GenOutcome.ok "r", OpenOutcome.err "bad id", NameOpenOutcome.notFound, AppendOutcome.ok, "ts"⟩
        "i" "n" [] "u" "b").trace = []
      ∧ (log_chat_to_sheet false
        ⟨GenOutcome.ok "r", OpenOutcome.err "bad id", NameOpenOutcome.notFound, AppendOutcome.ok, "ts"⟩
        "i" "n" [] "u" "b").sheet = []
      ∧ errorsOf (log_chat_to_sheet false
        ⟨GenOutcome.ok "r", OpenOutcome.err "bad id", NameOpenOutcome.notFound, AppendOutcome.ok, "ts"⟩
        "i" "n" [] "u" "b").trace ≠ []) :=
  ⟨(C4_resolution_fallback
      ⟨GenOutcome.ok "r", OpenOutcome.ok, NameOpenOutcome.ok, AppendOutcome.ok, "ts"⟩
      "i" "n" "u" "b" []).1 rfl,
   (C4_resolution_fallback
      ⟨GenOutcome.ok "r", OpenOutcome.err "bad id", NameOpenOutcome.ok, AppendOutcome.ok, "ts"⟩
      "i" "n" "u" "b" []).2.1 (by simp),
   (C4_resolution_fallback
      ⟨GenOutcome.ok "r", OpenOutcome.err "bad id", NameOpenOutcome.notFound, AppendOutcome.ok, "ts"⟩
      "i" "n" "u" "b" []).2.2 (by simp) (by simp)⟩

/-- C5: a failure anywhere inside the logging operation never alters the
conversation store or the displayed conversation: for every environment with
a successful generation — whatever the open-by-ID, open-by-name and append
outcomes, including all of them failing — the store afterwards is the prior
history plus the user and assistant messages, and both turns are displayed.
(`log_chat_to_sheet` is a total function here because every statement of its
body sits inside `try`/`except` in the source, so no exception escapes it.) -/
theorem C5_logging_failure_frame (cfg : Config) (env : Env)
    (h : List Message) (sheet : List (List String)) (p r : String)
    (hp : p ≠ "") (hg : env.gen = GenOutcome.ok r) :
    (handle_input cfg false false env h sheet p).chat_history
      = h ++ [⟨"user", p⟩, ⟨"assistant", r⟩]
    ∧ displayedOf (handle_input cfg false false env h sheet p).trace
        = [("user", p), ("assistant", r)] := by
  simp [handle_input, hp, hg, displayedOf, displayedOf_log_chat]

/-- Witness for C5 at a concrete input where every logging step fails. -/
theorem C5_logging_failure_frame_witness :
    (handle_input ⟨"k", "j", "i", "ChatLogs"⟩ false false
        ⟨GenOutcome.ok "resp", OpenOutcome.err "x", NameOpenOutcome.err "y",
         AppendOutcome.err "z", "ts"⟩ [] [] "hi").chat_history
      = [] ++ [⟨"user", "hi"⟩, ⟨"assistant", "resp"⟩]
    ∧ displayedOf (handle_input ⟨"k", "j", "i", "ChatLogs"⟩ false false
        ⟨GenOutcome.ok "resp", OpenOutcome.err "x", NameOpenOutcome.err "y",
         AppendOutcome.err "z", "ts"⟩ [] [] "hi").trace
        = [("user", "hi"), ("assistant", "resp")] :=
  C5_logging_failure_frame _ _ _ _ _ _ (by decide) rfl

/-- C7: the prompt sent to the generation endpoint is exactly the fixed system
prompt, a literal "User:" label, the user input, and a literal "Assistant:"
label concatenated; the history `h` is universally quantified and absent from
the right-hand side, so the request string is a function of the current input
alone and contains no prior turns. -/
theorem C7_prompt_function_of_input_alone (cfg : Config) (env : Env)
    (h : List Message) (sheet : List (List String)) (p : String) (hp : p ≠ "") :
    genCallsOf (handle_input cfg false false env h sheet p).trace = [full_prompt p]
    ∧ full_prompt p = SYSTEM_PROMPT ++ "\n\nUser: " ++ p ++ "\nAssistant:" := by
  obtain ⟨g, oid, onm, ap, ts⟩ := env
  cases g <;>
    simp [handle_input, hp, genCallsOf, genCallsOf_log_chat, full_prompt]

/-- Witness for C7 at a concrete input. -/
theorem C7_prompt_function_of_input_alone_witness :
    genCallsOf (handle_input ⟨"k", "j", "i", "ChatLogs"⟩ false false
        ⟨GenOutcome.ok "resp", OpenOutcome.ok, NameOpenOutcome.ok, AppendOutcome.ok, "ts"⟩
        [⟨"user", "earlier"⟩] [] "hi").trace = [full_prompt "hi"]
    ∧ full_prompt "hi" = SYSTEM_PROMPT ++ "\n\nUser: " ++ "hi" ++ "\nAssistant:" :=
  C7_prompt_function_of_input_alone _ _ _ _ _ (by decide)

/-- C6: startup succeeds exactly when the three required secrets
(GEMINI_API_KEY, SERVICE_ACCOUNT_JSON, SHEET_ID) are all present — a missing
one halts startup with an error before any chat interaction — while
SHEET_NAME is not required: when it is absent the fallback name "ChatLogs"
is used. -/
theorem C6_config_required_and_fallback (s : Secrets) :
    ((∃ c, load_config s = Except.ok c)
      ↔ s.GEMINI_API_KEY.isSome ∧ s.SERVICE_ACCOUNT_JSON.isSome ∧ s.SHEET_ID.isSome)
    ∧ (∀ c, load_config s = Except.ok c → c.sheetName = s.SHEET_NAME.getD "ChatLogs")
    ∧ (s.SHEET_NAME = none →
        ∀ c, load_config s = Except.ok c → c.sheetName = "ChatLogs") := by
  obtain ⟨g, j, i, n⟩ := s
  cases g <;> cases j <;> cases i <;> cases n <;>
    simp [load_config]

/-- Witness for C6: complete secrets with SHEET_NAME absent load successfully
with the fallback sheet name. -/
theorem C6_config_required_and_fallback_witness :
    load_config ⟨some "k", some "j", some "i", none⟩
      = Except.ok ⟨"k", "j", "i", "ChatLogs"⟩
    ∧ (Config.mk "k" "j" "i" "ChatLogs").sheetName = "ChatLogs" :=
  ⟨rfl, (C6_config_required_and_fallback ⟨some "k", some "j", some "i", none⟩).2.2
      rfl ⟨"k", "j", "i", "ChatLogs"⟩ rfl⟩

/-- C8: `log_chat_to_sheet` makes at most one row-append call, every
row-append call targets worksheet tab 0 (`.sheet1`, the first tab) with the
row `[timestamp, userMessage, botResponse]` in that column order, a
successful log operation appends exactly that one row to the sheet, and any
one handler turn makes at most one row-append call. -/
theorem C8_append_row_schema (env : Env) (i n u b : String)
    (sheet : List (List String)) :
    (appendRowCallsOf (log_chat_to_sheet false env i n sheet u b).trace).length ≤ 1
    ∧ (∀ c ∈ appendRowCallsOf (log_chat_to_sheet false env i n sheet u b).trace,
        c = (0, [env.timestamp, u, b]))
    ∧ (env.append = AppendOutcome.ok →
        (env.openById = OpenOutcome.ok ∨ env.openByName = NameOpenOutcome.ok) →
        (log_chat_to_sheet false env i n sheet u b).sheet = sheet ++ [[env.timestamp, u, b]]
        ∧ appendRowCallsOf (log_chat_to_sheet false env i n sheet u b).trace
            = [(0, [env.timestamp, u, b])])
    ∧ (∀ (cfg : Config) (gN cN : Bool) (h : List Message) (p : String),
        (appendRowCallsOf (handle_input cfg gN cN env h sheet p).trace).length ≤ 1) := by
  obtain ⟨g, oid, onm, ap, ts⟩ := env
  refine ⟨?_, ?_, ?_, ?_⟩
  · cases oid <;> cases onm <;> cases ap <;>
      simp [log_chat_to_sheet, append_step, appendRowCallsOf]
  · cases oid <;> cases onm <;> cases ap <;>
      simp [log_chat_to_sheet, append_step, appendRowCallsOf]
  · cases oid <;> cases onm <;> cases ap <;>
      simp [log_chat_to_sheet, append_step, appendRowCallsOf]
  · intro cfg gN cN h p
    by_cases hp : p = "" <;>
      cases gN <;> cases cN <;> cases g <;> cases oid <;> cases onm <;> cases ap <;>
        simp [handle_input, log_chat_to_sheet, append_step, appendRowCallsOf, hp]

/-- Witness for C8 at a concrete successful run. -/
theorem C8_append_row_schema_witness :
    (appendRowCallsOf (log_chat_to_sheet false
        ⟨GenOutcome.ok "r", OpenOutcome.ok, NameOpenOutcome.ok, AppendOutcome.ok, "ts"⟩
        "i" "n" [["old", "u0", "b0"]] "u" "b").trace).length ≤ 1
    ∧ ((log_chat_to_sheet false
        ⟨GenOutcome.ok "r", OpenOutcome.ok, NameOpenOutcome.ok, AppendOutcome.ok, "ts"⟩
        "i" "n" [["old", "u0", "b0"]] "u" "b").sheet
          = [["old", "u0", "b0"]] ++ [["ts", "u", "b"]]
      ∧ appendRowCallsOf (log_chat_to_sheet false
        ⟨GenOutcome.ok "r", OpenOutcome.ok, NameOpenOutcome.ok, AppendOutcome.ok, "ts"⟩
        "i" "n" [["old", "u0", "b0"]] "u" "b").trace = [(0, ["ts", "u", "b"])]) :=
  ⟨(C8_append_row_schema
      ⟨GenOutcome.ok "r", OpenOutcome.ok, NameOpenOutcome.ok, AppendOutcome.ok, "ts"⟩
      "i" "n" "u" "b" [["old", "u0", "b0"]]).1,
   (C8_append_row_schema
      ⟨GenOutcome.ok "r", OpenOutcome.ok, NameOpenOutcome.ok, AppendOutcome.ok, "ts"⟩
      "i" "n" "u" "b" [["old", "u0", "b0"]]).2.2.1 rfl (Or.inl rfl)⟩

/-- C9: if either backend client failed to initialize (`gemini_model is None
or gs_client is None`, line 124), a non-empty input only renders an error and
stops: no user message is appended, no generation call is made, no log call
is attempted, and the store and sheet are unchanged.  Independently, the
`client is None` guard of `log_chat_to_sheet` (line 58) returns without any
open or append attempt. -/
theorem C9_uninitialized_clients_guard (cfg : Config) (gN cN : Bool) (env : Env)
    (h : List Message) (sheet : List (List String)) (p u b : String)
    (hp : p ≠ "") (hn : gN = true ∨ cN = true) :
    userAppends (handle_input cfg gN cN env h sheet p).trace = []
    ∧ genCallsOf (handle_input cfg gN cN env h sheet p).trace = []
    ∧ logCallsOf (handle_input cfg gN cN env h sheet p).trace = []
    ∧ errorsOf (handle_input cfg gN cN env h sheet p).trace
        = ["Backend services not initialized. Cannot process request."]
    ∧ Event.stop ∈ (handle_input cfg gN cN env h sheet p).trace
    ∧ (handle_input cfg gN cN env h sheet p).chat_history = h
    ∧ (handle_input cfg gN cN env h sheet p).sheet = sheet
    ∧ log_chat_to_sheet true env cfg.sheetId cfg.sheetName sheet u b
        = ⟨[], sheet⟩ := by
  rcases hn with hn | hn <;> subst hn <;>
  · refine ⟨?_, ?_, ?_, ?_, ?_, ?_, ?_, ?_⟩ <;>
      simp [handle_input, log_chat_to_sheet, hp, userAppends, appendedMsgs,
        genCallsOf, logCallsOf, errorsOf]

/-- Witness for C9 at a concrete input. -/
theorem C9_uninitialized_clients_guard_witness :
    userAppends (handle_input ⟨"k", "j", "i", "ChatLogs"⟩ true false
        ⟨GenOutcome.ok "resp", OpenOutcome.ok, NameOpenOutcome.ok, AppendOutcome.ok, "ts"⟩
        [] [] "hi").trace = []
    ∧ genCallsOf (handle_input ⟨"k", "j", "i", "ChatLogs"⟩ true false
        ⟨GenOutcome.ok "resp", OpenOutcome.ok, NameOpenOutcome.ok, AppendOutcome.ok, "ts"⟩
        [] [] "hi").trace = []
    ∧ logCallsOf (handle_input ⟨"k", "j", "i", "ChatLogs"⟩ true false
        ⟨GenOutcome.ok "resp", OpenOutcome.ok, NameOpenOutcome.ok, AppendOutcome.ok, "ts"⟩
        [] [] "hi").trace = []
    ∧ errorsOf (handle_input ⟨"k", "j", "i", "ChatLogs"⟩ true false
        ⟨GenOutcome.ok "resp", OpenOutcome.ok, NameOpenOutcome.ok, AppendOutcome.ok, "ts"⟩
        [] [] "hi").trace
        = ["Backend services not initialized. Cannot process request."]
    ∧ Event.stop ∈ (handle_input ⟨"k", "j", "i", "ChatLogs"⟩ true false
        ⟨GenOutcome.ok "resp", OpenOutcome.ok, NameOpenOutcome.ok, AppendOutcome.ok, "ts"⟩
        [] [] "hi").trace
    ∧ (handle_input ⟨"k", "j", "i", "ChatLogs"⟩ true false
        ⟨GenOutcome.ok "resp", OpenOutcome.ok, NameOpenOutcome.ok, AppendOutcome.ok, "ts"⟩
        [] [] "hi").chat_history = []
    ∧ (handle_input ⟨"k", "j", "i", "ChatLogs"⟩ true false
        ⟨GenOutcome.ok "resp", OpenOutcome.ok, NameOpenOutcome.ok, AppendOutcome.ok, "ts"⟩
        [] [] "hi").sheet = []
    ∧ log_chat_to_sheet true
        ⟨GenOutcome.ok "resp", OpenOutcome.ok, NameOpenOutcome.ok, AppendOutcome.ok, "ts"⟩
        "i" "ChatLogs" [] "u" "b" = ⟨[], []⟩ :=
  C9_uninitialized_clients_guard ⟨"k", "j", "i", "ChatLogs"⟩ true false _ _ _ _ _ _
    (by decide) (Or.inl rfl)

/-- C10: the conversation store is append-only — every path of the handler
leaves the prior history as a prefix of the resulting history, appending
zero, one, or two messages at the end and never removing, reordering, or
mutating an existing one. -/
theorem C10_history_append_only (cfg : Config) (gN cN : Bool) (env : Env)
    (h : List Message) (sheet : List (List String)) (p : String) :
    ∃ s, (handle_input cfg gN cN env h sheet p).chat_history = h ++ s
      ∧ s.length ≤ 2 := by
  obtain ⟨g, oid, onm, ap, ts⟩ := env
  by_cases hp : p = ""
  · exact ⟨[], by simp [handle_input, hp], by simp⟩
  · cases hb : gN || cN with
    | true => exact ⟨[], by simp [handle_input, hp, hb], by simp⟩
    | false =>
      have hgN : gN = false := by
        cases gN
        · rfl
        · simp at hb
      have hcN : cN = false := by
        cases cN
        · rfl
        · simp at hb
      subst hgN; subst hcN
      cases g with
      | ok r =>
          exact ⟨[⟨"user", p⟩, ⟨"assistant", r⟩], by simp [handle_input, hp], by simp⟩
      | err e =>
          exact ⟨[⟨"user", p⟩], by simp [handle_input, hp], by simp⟩

end GeminiChatLogger
